import Mathlib

/-!
Verification of the `crossing` repository (semantic boundary-crossing scanner
and its markdown report generator) against its natural-language specification.

The report layer (`report.py`) is embedded directly from the source.  JSON
numbers are modelled as `ℚ` (counts as `ℕ`), JSON strings as `String`, and
keys that the code reads with `dict.get` defaults are modelled as `Option`
fields with the default applied at each use site, exactly as the source does.

The analysis core (`semantic_scan.py`) is not part of the source tree here
(only its test suite is), so the information-theory and call-graph parts are
modelled from the specification text, as marked in their doc comments.
-/

/-! ## String and path helpers (Python runtime counterparts) -/

/-- Left-pad a string with zeros to width `w` (used for fixed-point digits). -/
def padZeros (w : Nat) (s : String) : String :=
  (List.replicate (w - s.length) '0').asString ++ s

/-- Round a rational to the nearest integer, ties to even — the rounding used
by Python float formatting. -/
def roundHalfEven (q : ℚ) : ℤ :=
  let f := Rat.floor q
  let frac : ℚ := q - (f : ℚ)
  if frac < 1/2 then f
  else if 1/2 < frac then f + 1
  else if f % 2 = 0 then f else f + 1

/-- Python `f\"{q:.prec f}\"`: fixed-point rendering of a number with `prec`
digits after the point. -/
def formatFixed (prec : Nat) (q : ℚ) : String :=
  let scale : ℚ := ((10 ^ prec : ℕ) : ℚ)
  let n := roundHalfEven (q * scale)
  let sign := if n < 0 then "-" else ""
  let m := n.natAbs
  let ip := m / 10 ^ prec
  let fp := m % 10 ^ prec
  if prec = 0 then sign ++ toString ip
  else sign ++ toString ip ++ "." ++ padZeros prec (toString fp)

/-- Python `f\"{q:.0%}\"`: percentage with no decimal digits. -/
def formatPercent (q : ℚ) : String :=
  formatFixed 0 (q * 100) ++ "%"

/-- Python string `<` is lexicographic on code points — the order of
`String` in Lean, computed here directly on the character lists. -/
def charListLt : List Char → List Char → Bool
  | [], [] => false
  | [], _ :: _ => true
  | _ :: _, [] => false
  | a :: as, b :: bs => if a < b then true else if b < a then false else charListLt as bs

/-- Python `a < b` on strings. -/
def pyStringLt (a b : String) : Bool :=
  charListLt a.data b.data

/-- Python `a <= b` on strings. -/
def pyStringLe (a b : String) : Bool :=
  pyStringLt a b || a == b

/-- Python `sorted` on strings: stable sort in code-point order. -/
def pySortedStrings (l : List String) : List String :=
  List.insertionSort (fun a b => pyStringLe a b = true) l

/-- Python `str.split(sep)` for a one-character separator, over the character
list. -/
def splitOnChar (sep : Char) : List Char → List (List Char)
  | [] => [[]]
  | c :: cs =>
    let rest := splitOnChar sep cs
    if c = sep then [] :: rest
    else
      match rest with
      | [] => [[c]]
      | w :: ws => (c :: w) :: ws

/-- The `/`-separated pieces of a path. -/
def slashPieces (p : String) : List String :=
  (splitOnChar '/' p.data).map List.asString

/-- Python `os.path.basename` for POSIX paths. -/
def basename (f : String) : String :=
  ((slashPieces f).getLast?).getD ""

/-- Path components of a POSIX path, empty components dropped. -/
def splitPath (p : String) : List String :=
  (slashPieces p).filter (fun s => s ≠ "")

/-- Python `str.lower()` (ASCII case mapping suffices here). -/
def pyToLower (s : String) : String :=
  (s.data.map Char.toLower).asString

/-- Python `str.upper()` (ASCII case mapping suffices here). -/
def pyToUpper (s : String) : String :=
  (s.data.map Char.toUpper).asString

/-- Length of the common component prefix of two paths. -/
def commonLen : List String → List String → Nat
  | a :: as, b :: bs => if a = b then commonLen as bs + 1 else 0
  | _, _ => 0

/-- Python `os.path.relpath(path, start)` for already-absolute, already
normalised POSIX paths (the form the scanner emits): drop the common
component prefix, climb out of the rest of `start`, descend into the rest
of `path`; `\".\"` when the two coincide. -/
def relpath (path start : String) : String :=
  let p := splitPath path
  let s := splitPath start
  let c := commonLen p s
  let parts := List.replicate (s.length - c) ".." ++ p.drop c
  if parts = [] then "." else String.intercalate "/" parts

/-! ## Data model of the scan JSON as read by `report.py`

Each structure lists exactly the keys the report generator touches.  Keys the
code reads with `dict.get` and a default are `Option` fields; keys the code
indexes directly (`crossing[\"exception_type\"]`, `crossing[\"risk_level\"]`)
are mandatory fields. -/

/-- A serialized raise site, as read by the report layer. -/
structure RaiseSite where
  file : Option String := none
  line : Option Nat := none
  function : Option String := none
  context : Option String := none
  message : Option String := none
  implicit : Option Bool := none
deriving Repr, DecidableEq

/-- A serialized handler site, as read by the report layer. -/
structure HandlerSite where
  file : Option String := none
  line : Option Nat := none
  function : Option String := none
  re_raises : Option Bool := none
  returns_value : Option Bool := none
  assigns_default : Option Bool := none
deriving Repr, DecidableEq

/-- The `information_theory` sub-object of a crossing.  The field
`collapse_frac` models the JSON key `collapse_ratio` and
`entropy_bits` the key `semantic_entropy_bits`, `loss_bits` the key
`information_loss_bits`. -/
structure InfoTheory where
  entropy_bits : Option ℚ := none
  loss_bits : Option ℚ := none
  collapse_frac : Option ℚ := none
deriving Repr, DecidableEq

/-- A serialized crossing.  A missing `raise_sites`, `handler_sites` or
`information_theory` key is read by the code as `[]` or an empty dict, so it
is modelled by the empty default. -/
structure Crossing where
  exception_type : String
  risk_level : String
  raise_sites : List RaiseSite := []
  handler_sites : List HandlerSite := []
  information_theory : InfoTheory := {}
deriving Repr, DecidableEq

/-- The `summary` section of a scan report.  The spec gives its shape as
root, files_scanned, parse_errors, total_raises, explicit_raises,
implicit_raises, total_handlers, total_crossings, polymorphic_crossings,
risky_crossings, total_information_loss_bits, mean_collapse_ratio; the field
`mean_collapse_frac` models the key `mean_collapse_ratio`. -/
structure Summary where
  root : Option String := none
  files_scanned : Option Nat := none
  parse_errors : Option Nat := none
  total_raises : Option Nat := none
  explicit_raises : Option Nat := none
  implicit_raises : Option Nat := none
  total_handlers : Option Nat := none
  total_crossings : Option Nat := none
  polymorphic_crossings : Option Nat := none
  risky_crossings : Option Nat := none
  total_information_loss_bits : Option ℚ := none
  mean_collapse_frac : Option ℚ := none
deriving Repr, DecidableEq

/-- The whole scan JSON given to `generate_report`.  Note that the generator
reads a top-level `root` key (`scan_data.get(\"root\", \"\")`), distinct from
the `root` inside `summary`. -/
structure ScanData where
  summary : Summary := {}
  crossings : List Crossing := []
  root : Option String := none
deriving Repr, DecidableEq

/-! ## Embedded report helpers (from `report.py`) -/

/-- Embeds `_risk_sort_key`: risk level to sort rank, unknown levels and the
default both map to 3 (the dict lookup with default in the source). -/
def risk_sort_key (crossing : Crossing) : Nat :=
  if crossing.risk_level = "high" then 0
  else if crossing.risk_level = "elevated" then 1
  else if crossing.risk_level = "medium" then 2
  else 3

/-- Embeds `_classify_overall_risk`. -/
def classify_overall_risk (crossings : List Crossing) : String :=
  let high_count := crossings.countP (fun c => c.risk_level == "high")
  let elevated_count := crossings.countP (fun c => c.risk_level == "elevated")
  let medium_count := crossings.countP (fun c => c.risk_level == "medium")
  if high_count ≥ 3 then "High"
  else if high_count ≥ 1 ∨ elevated_count ≥ 3 then "Medium-High"
  else if elevated_count ≥ 1 ∨ medium_count ≥ 3 then "Medium"
  else if medium_count ≥ 1 then "Low-Medium"
  else "Low"

/-- Embeds `_describe_impact`. -/
def describe_impact (crossing : Crossing) : String :=
  let exc := crossing.exception_type
  let raises := crossing.raise_sites
  let handlers := crossing.handler_sites
  let info := crossing.information_theory
  let raise_count := raises.length
  let handler_count := handlers.length
  let collapse := (info.collapse_frac).getD 0
  let functions := (raises.map (fun r => (r.function).getD "unknown")).dedup
  let files := (raises.filterMap (fun r =>
    let f := (r.file).getD ""
    if f ≠ "" then some (basename f) else none)).dedup
  let reraise_count := handlers.countP (fun h => (h.re_raises).getD false)
  let return_count := handlers.countP (fun h => (h.returns_value).getD false)
  let default_count := handlers.countP (fun h => (h.assigns_default).getD false)
  let parts1 : List String :=
    if raise_count = 1 then
      ["Single `" ++ exc ++ "` raise site — no semantic ambiguity."]
    else if files.length > 1 then
      ["`" ++ exc ++ "` is raised at " ++ toString raise_count ++ " sites across "
        ++ toString files.length ++ " files ("
        ++ String.intercalate ", " (pySortedStrings files) ++ "), in "
        ++ toString functions.length ++ " different functions."]
    else
      ["`" ++ exc ++ "` is raised at " ++ toString raise_count ++ " sites in "
        ++ toString functions.length ++ " different functions."]
  let parts2 : List String :=
    if handler_count = 0 then
      ["No local handlers — the exception propagates to the caller with full semantic information preserved."]
    else if handler_count = 1 then
      let h := (handlers.head?).getD {}
      let action := if (h.re_raises).getD false then "re-raises"
        else if (h.returns_value).getD false then "returns a value"
        else if (h.assigns_default).getD false then "assigns a default"
        else "handles"
      ["A single handler in `" ++ ((h.function).getD "?") ++ "` " ++ action
        ++ ". With " ++ toString raise_count
        ++ " raise sites funneling through one handler, semantic disambiguation is impossible."]
    else
      let behaviors : List String :=
        (if reraise_count ≠ 0 then [toString reraise_count ++ " re-raise"] else [])
        ++ (if return_count ≠ 0 then [toString return_count ++ " return"] else [])
        ++ (if default_count ≠ 0 then [toString default_count ++ " assign default"] else [])
      [toString handler_count ++ " handlers ("
        ++ (if behaviors ≠ [] then String.intercalate ", " behaviors else "various behaviors") ++ ")."]
  let parts3 : List String :=
    if collapse > 0.5 then
      let bits_lost := (info.loss_bits).getD 0
      ["Information collapse: " ++ formatPercent collapse
        ++ " of semantic information is lost (" ++ formatFixed 1 bits_lost ++ " bits destroyed)."]
    else []
  String.intercalate " " (parts1 ++ parts2 ++ parts3)

/-- The broad built-in exception types of `_generate_recommendation`. -/
def builtin_types : List String :=
  ["ValueError", "TypeError", "KeyError", "AttributeError",
   "RuntimeError", "IndexError", "OSError", "IOError"]

/-- Embeds `_generate_recommendation`. -/
def generate_recommendation (crossing : Crossing) : String :=
  let exc := crossing.exception_type
  let raises := crossing.raise_sites
  let handlers := crossing.handler_sites
  let risk := crossing.risk_level
  let handler_count := handlers.length
  let raise_count := raises.length
  let implicit_count := raises.countP (fun r => (r.implicit).getD false)
  let explicit_count := raise_count - implicit_count
  if handler_count = 1 ∧ raise_count > 2 then
    let h := (handlers.head?).getD {}
    if (h.re_raises).getD false then
      "The single handler re-raises, so downstream handlers inherit the ambiguity. Consider adding context (e.g., chaining with `raise ... from`) or using distinct exception subclasses."
    else if (h.returns_value).getD false ∨ (h.assigns_default).getD false then
      "Narrow the handler scope: isolate the specific call that may raise `" ++ exc
        ++ "` inside the try block, so unrelated `" ++ exc
        ++ "` exceptions from other code paths aren\x27t caught."
    else
      "Consider using distinct exception subclasses for the " ++ toString raise_count
        ++ " different error conditions, or narrow the handler to catch only from the expected call site."
  else if implicit_count > 0 ∧ explicit_count > 0 ∧ handler_count > 0 then
    "Handlers designed for explicit `" ++ exc ++ "` raises also catch "
      ++ toString implicit_count
      ++ " implicit source(s) (dict access, type conversions, etc.). Consider using `.get()` or EAFP patterns that don\x27t conflate the implicit raises with the intentional ones."
  else if exc ∈ builtin_types ∧ raise_count > 3 then
    "`" ++ exc ++ "` is a broad built-in type carrying " ++ toString raise_count
      ++ " different meanings here. Consider defining project-specific exception subclasses, or narrowing handler try-blocks to minimize the catch surface."
  else if handler_count > 1 then
    "Multiple handlers exist, which may provide adequate discrimination. Verify that each handler\x27s try-block scope only exposes the expected raise sites."
  else if risk = "low" then
    "No action needed."
  else
    "Review whether the " ++ toString handler_count
      ++ " handler(s) can distinguish between the " ++ toString raise_count
      ++ " different raise contexts."

/-- Embeds `_get_affected_files`: the distinct file paths of a crossing,
relativised against `root` when `root` is non-empty, sorted. -/
def get_affected_files (crossing : Crossing) (root : String) : List String :=
  let raiseFiles := crossing.raise_sites.filterMap (fun r =>
    let f := (r.file).getD ""
    if f ≠ "" then some (if root ≠ "" then relpath f root else f) else none)
  let handlerFiles := crossing.handler_sites.filterMap (fun h =>
    let f := (h.file).getD ""
    if f ≠ "" then some (if root ≠ "" then relpath f root else f) else none)
  pySortedStrings (raiseFiles ++ handlerFiles).dedup

/-- The affected files `generate_report` shows for a crossing: the call
`_get_affected_files(crossing, root)` with the root the generator read,
`scan_data.get(\"root\", \"\")`. -/
def affectedFilesShown (scan_data : ScanData) (crossing : Crossing) : List String :=
  get_affected_files crossing ((scan_data.root).getD "")

/-! ## Embedded report generator (from `generate_report` in `report.py`)

The source builds a `lines` list of string segments and joins it with
newlines.  The scan date (the one value `generate_report` takes from the
clock rather than from its arguments) is factored out: the generator produces
`Piece`s, and `renderPiece` substitutes a given date string into the two
segments that mention it.  Every other segment is a `Piece.lit` holding
exactly the string the source appends. -/

/-- A report segment: a fixed string, or one of the two segments that embed
the scan date. -/
inductive Piece where
  | lit (s : String)
  | scannedDate
  | performedDate
deriving Repr, DecidableEq

/-- Renders a segment with a concrete scan date, as the f-strings of the
source do. -/
def renderPiece (scan_date : String) : Piece → String
  | .lit s => s
  | .scannedDate => "**Scanned:** " ++ scan_date
  | .performedDate => "*Scan performed " ++ scan_date ++ "*"

/-- The sort relation of `sorted(crossings, key=_risk_sort_key)`: comparison
of risk ranks only. -/
def riskLE (a b : Crossing) : Prop := risk_sort_key a ≤ risk_sort_key b

instance : DecidableRel riskLE := fun _ _ => Nat.decLe _ _

instance : IsTotal Crossing riskLE := ⟨fun _ _ => Nat.le_total _ _⟩

instance : IsTrans Crossing riskLE := ⟨fun _ _ _ => Nat.le_trans⟩

/-- Embeds `sorted(crossings, key=_risk_sort_key)`: Python sorts stably in
ascending key order, which insertion sort under `riskLE` reproduces. -/
def crossings_sorted (crossings : List Crossing) : List Crossing :=
  List.insertionSort riskLE crossings

/-- The risk levels whose crossings reach the findings section. -/
def significantLevels : List String := ["high", "elevated", "medium"]

/-- Embeds the `significant` filter of `generate_report`: the sorted
crossings whose risk level is high, elevated or medium. -/
def significantOf (crossings : List Crossing) : List Crossing :=
  (crossings_sorted crossings).filter (fun c => significantLevels.contains c.risk_level)

/-- Embeds `summary.get(\"files_scanned\", 0)`. -/
def filesScanned (s : Summary) : Nat := (s.files_scanned).getD 0

/-- Embeds `summary.get(\"total_raises\", 0)`. -/
def totalRaises (s : Summary) : Nat := (s.total_raises).getD 0

/-- Embeds `summary.get(\"total_handlers\", 0)`. -/
def totalHandlers (s : Summary) : Nat := (s.total_handlers).getD 0

/-- Embeds `summary.get(\"total_crossings\", 0)`. -/
def totalCrossings (s : Summary) : Nat := (s.total_crossings).getD 0

/-- Embeds `summary.get(\"mean_collapse_ratio\", 0)`. -/
def meanCollapse (s : Summary) : ℚ := (s.mean_collapse_frac).getD 0

/-- Embeds the density computation of `generate_report`:
`total_crossings / files_scanned if files_scanned > 0 else 0`. -/
def reportDensity (s : Summary) : ℚ :=
  if filesScanned s > 0 then (totalCrossings s : ℚ) / (filesScanned s : ℚ) else 0

/-- Count of crossings at a given risk level (the generator recounts them
from the unsorted list). -/
def riskCount (level : String) (crossings : List Crossing) : Nat :=
  crossings.countP (fun c => c.risk_level == level)

/-- Embeds the `BENCHMARKS` table in its source (insertion) order. -/
structure BenchData where
  files : Nat
  crossings : Nat
  elevated : Nat
  density : ℚ
deriving Repr, DecidableEq

/-- The benchmark table of `report.py`. -/
def BENCHMARKS : List (String × BenchData) :=
  [("flask", ⟨24, 6, 2, 0.25⟩),
   ("requests", ⟨18, 5, 2, 0.28⟩),
   ("rich", ⟨100, 5, 1, 0.05⟩),
   ("celery", ⟨161, 12, 3, 0.07⟩),
   ("httpx", ⟨23, 3, 0, 0.13⟩),
   ("fastapi", ⟨47, 0, 0, 0.0⟩),
   ("hypothesis", ⟨103, 29, 7, 0.28⟩),
   ("pytest", ⟨71, 9, 9, 0.13⟩),
   ("click", ⟨17, 11, 4, 0.65⟩),
   ("tqdm", ⟨31, 7, 3, 0.23⟩),
   ("uvicorn", ⟨40, 7, 3, 0.18⟩),
   ("invoke", ⟨47, 12, 3, 0.26⟩),
   ("scrapy", ⟨113, 23, 8, 0.20⟩),
   ("colorama", ⟨7, 1, 0, 0.14⟩)]

/-- The benchmark densities, in table order (`BENCHMARKS.values()`). -/
def benchDensities : List ℚ := BENCHMARKS.map (fun b => b.2.density)

/-- Header block: title, project and version lines, scan date, tool line. -/
def headerPieces (project_name repo version : String) : List Piece :=
  [Piece.lit ("# Crossing Audit Report: " ++ project_name), Piece.lit ""]
  ++ (if repo ≠ "" then [Piece.lit ("**Project:** " ++ project_name ++ " (" ++ repo ++ ")")]
      else [Piece.lit ("**Project:** " ++ project_name)])
  ++ (if version ≠ "" then [Piece.lit ("**Version:** " ++ version)] else [])
  ++ [Piece.scannedDate,
      Piece.lit "**Tool:** Crossing Semantic Scanner v0.9",
      Piece.lit "", Piece.lit "---", Piece.lit ""]

/-- Executive summary block. -/
def execSummaryPieces (root : String) (summary : Summary) (crossings : List Crossing)
    (project_name : String) : List Piece :=
  let files_scanned := filesScanned summary
  let total_raises := totalRaises summary
  let total_handlers := totalHandlers summary
  let total_crossings := totalCrossings summary
  let density := reportDensity summary
  let overall_risk := classify_overall_risk crossings
  let high_count := riskCount "high" crossings
  let elevated_count := riskCount "elevated" crossings
  let medium_count := riskCount "medium" crossings
  let significant := significantOf crossings
  [Piece.lit "## Executive Summary", Piece.lit ""]
  ++ (if total_crossings = 0 then
        [Piece.lit (project_name ++ " has **zero semantic boundary crossings**. For a "
          ++ toString files_scanned ++ "-file codebase with " ++ toString total_raises
          ++ " raise sites and " ++ toString total_handlers
          ++ " handlers, this is excellent — all exception handling is semantically unambiguous.")]
      else
        let rb1 : List String :=
          if high_count ≠ 0 then ["**" ++ toString high_count ++ " high-risk**"] else []
        let rb2 := rb1 ++
          (if elevated_count ≠ 0 then ["**" ++ toString elevated_count ++ " elevated-risk**"] else [])
        let risk_breakdown := rb2 ++
          (if rb2 = [] ∧ medium_count ≠ 0 then ["**" ++ toString medium_count ++ " medium-risk**"] else [])
        let crossing_word := if total_crossings = 1 then "crossing" else "crossings"
        [Piece.lit (project_name ++ " has **" ++ toString total_crossings
          ++ " semantic boundary " ++ crossing_word ++ "**, including "
          ++ (if risk_breakdown ≠ [] then String.intercalate ", " risk_breakdown else "no significant")
          ++ " findings. For a " ++ toString files_scanned ++ "-file codebase with "
          ++ toString total_raises ++ " raise sites and " ++ toString total_handlers
          ++ " handlers, this gives a crossing density of " ++ formatFixed 2 density ++ " per file.")]
        ++ (if significant ≠ [] then
              let files_affected := (significant.flatMap (fun c => get_affected_files c root)).dedup
              if files_affected.length ≤ 3 then
                [Piece.lit ("\nThe significant findings are concentrated in "
                  ++ String.intercalate ", " ((pySortedStrings files_affected).map
                      (fun f => "`" ++ f ++ "`")) ++ ".")]
              else []
            else [])
        ++ [Piece.lit ("\n**Risk Level:** " ++ overall_risk ++ ".")])
  ++ [Piece.lit "", Piece.lit "---", Piece.lit ""]

/-- Scan summary table block. -/
def scanTablePieces (summary : Summary) (crossings : List Crossing) : List Piece :=
  [Piece.lit "## Scan Summary", Piece.lit "",
   Piece.lit "| Metric | Value |", Piece.lit "|--------|-------|",
   Piece.lit ("| Files scanned | " ++ toString (filesScanned summary) ++ " |"),
   Piece.lit ("| Raise sites | " ++ toString (totalRaises summary) ++ " |"),
   Piece.lit ("| Exception handlers | " ++ toString (totalHandlers summary) ++ " |"),
   Piece.lit ("| Total crossings | " ++ toString (totalCrossings summary) ++ " |"),
   Piece.lit ("| High risk | " ++ toString (riskCount "high" crossings) ++ " |"),
   Piece.lit ("| Elevated risk | " ++ toString (riskCount "elevated" crossings) ++ " |"),
   Piece.lit ("| Medium risk | " ++ toString (riskCount "medium" crossings) ++ " |"),
   Piece.lit ("| Low risk | " ++ toString (riskCount "low" crossings) ++ " |")]
  ++ (if meanCollapse summary > 0 then
        [Piece.lit ("| Mean collapse ratio | " ++ formatPercent (meanCollapse summary) ++ " |")]
      else [])
  ++ [Piece.lit "", Piece.lit "---", Piece.lit ""]

/-- Renders `r.get(\"line\", \"?\")` of a site label. -/
def lineStr (l : Option Nat) : String :=
  match l with
  | some n => toString n
  | none => "?"

/-- One raise-site bullet of a finding. -/
def raiseLabelLine (root exc : String) (r : RaiseSite) : String :=
  let func := (r.function).getD "?"
  let context := (r.context).getD ""
  let msg := r.message
  let implicit := (r.implicit).getD false
  let rel_file := if root ≠ "" then relpath ((r.file).getD "") root else (r.file).getD ""
  let label := "`" ++ rel_file ++ ":" ++ lineStr r.line ++ "`"
  let kind := if implicit then "implicit" else "raise"
  let detail0 := if context ≠ "" then "— " ++ context else ""
  let detail := detail0 ++ (match msg with
    | some m =>
      if m ≠ "" then " (`\"" ++ m.take 60 ++ (if m.length > 60 then "..." else "") ++ "`)" else ""
    | none => "")
  "- " ++ label ++ " " ++ kind ++ " `" ++ exc ++ "` in `" ++ func ++ "` " ++ detail

/-- One handler bullet of a finding. -/
def handlerLabelLine (root exc : String) (h : HandlerSite) : String :=
  let func := (h.function).getD "?"
  let action := if (h.re_raises).getD false then "re-raises"
    else if (h.returns_value).getD false then "returns"
    else if (h.assigns_default).getD false then "assigns default"
    else "handles"
  let rel_file := if root ≠ "" then relpath ((h.file).getD "") root else (h.file).getD ""
  "- `" ++ rel_file ++ ":" ++ lineStr h.line ++ "` — except `" ++ exc ++ "` in `"
    ++ func ++ "` (" ++ action ++ ")"

/-- The findings entry for one significant crossing. -/
def findingPieces (root : String) (crossing : Crossing) : List Piece :=
  let risk := pyToUpper crossing.risk_level
  let exc := crossing.exception_type
  let raises := crossing.raise_sites
  let handlers := crossing.handler_sites
  let info := crossing.information_theory
  let affected_files := get_affected_files crossing root
  [Piece.lit ("### " ++ risk ++ " RISK: `" ++ exc ++ "` — " ++ toString raises.length
    ++ " raise site" ++ (if raises.length ≠ 1 then "s" else "") ++ ", "
    ++ toString handlers.length ++ " handler" ++ (if handlers.length ≠ 1 then "s" else "")),
   Piece.lit ""]
  ++ (match affected_files with
      | [] => []
      | [f] => [Piece.lit ("**File:** `" ++ f ++ "`")]
      | fs => [Piece.lit ("**Files:** " ++ String.intercalate ", " (fs.map (fun f => "`" ++ f ++ "`")))])
  ++ [Piece.lit ("**Impact:** " ++ describe_impact crossing), Piece.lit "",
      Piece.lit "**Raise sites:**"]
  ++ (raises.take 8).map (fun r => Piece.lit (raiseLabelLine root exc r))
  ++ (if raises.length > 8 then [Piece.lit ("- ... and " ++ toString (raises.length - 8) ++ " more")] else [])
  ++ [Piece.lit ""]
  ++ (if handlers ≠ [] then
        [Piece.lit "**Handlers:**"]
        ++ (handlers.take 5).map (fun h => Piece.lit (handlerLabelLine root exc h))
        ++ (if handlers.length > 5 then
              [Piece.lit ("- ... and " ++ toString (handlers.length - 5) ++ " more")] else [])
        ++ [Piece.lit ""]
      else [])
  ++ (let entropy := (info.entropy_bits).getD 0
      let loss := (info.loss_bits).getD 0
      let collapse := (info.collapse_frac).getD 0
      if entropy > 0 then
        [Piece.lit ("**Information theory:** " ++ formatFixed 1 entropy ++ " bits entropy, "
          ++ formatFixed 1 loss ++ " bits lost, " ++ formatPercent collapse ++ " collapse"),
         Piece.lit ""]
      else [])
  ++ [Piece.lit ("**Recommendation:** " ++ generate_recommendation crossing), Piece.lit ""]

/-- The findings section: entries for the significant crossings, or the
no-action notice when there are crossings but none significant. -/
def findingsSectionPieces (root : String) (summary : Summary) (crossings : List Crossing) : List Piece :=
  let significant := significantOf crossings
  let total_crossings := totalCrossings summary
  if significant ≠ [] then
    [Piece.lit "## Findings", Piece.lit ""] ++ significant.flatMap (findingPieces root)
  else if total_crossings > 0 then
    [Piece.lit "## Findings", Piece.lit "",
     Piece.lit ("All " ++ toString total_crossings ++ " crossing"
       ++ (if total_crossings ≠ 1 then "s are" else " is") ++ " low risk. No action required."),
     Piece.lit ""]
  else []

/-- Benchmark context block: comparison table (current project bolded first,
benchmarks in descending density order, skipping a benchmark with the same
name) and the density comparison sentence. -/
def benchmarkPieces (summary : Summary) (crossings : List Crossing) (project_name : String) : List Piece :=
  let files_scanned := filesScanned summary
  let total_crossings := totalCrossings summary
  let density := reportDensity summary
  let high_count := riskCount "high" crossings
  let elevated_count := riskCount "elevated" crossings
  [Piece.lit "## Benchmark Context", Piece.lit "",
   Piece.lit "| Project | Files | Crossings | Elevated+ | Density |",
   Piece.lit "|---------|-------|-----------|-----------|---------|",
   Piece.lit ("| **" ++ project_name ++ "** | **" ++ toString files_scanned ++ "** | **"
     ++ toString total_crossings ++ "** | **" ++ toString (high_count + elevated_count)
     ++ "** | **" ++ formatFixed 2 density ++ "** |")]
  ++ ((List.insertionSort (fun a b : String × BenchData => b.2.density ≤ a.2.density) BENCHMARKS).filterMap
       (fun nb =>
         if pyToLower nb.1 = pyToLower project_name then none
         else some (Piece.lit ("| " ++ nb.1 ++ " | " ++ toString nb.2.files ++ " | "
           ++ toString nb.2.crossings ++ " | " ++ toString nb.2.elevated ++ " | "
           ++ formatFixed 2 nb.2.density ++ " |"))))
  ++ [Piece.lit ""]
  ++ (if benchDensities ≠ [] then
        let avg_density := benchDensities.sum / (benchDensities.length : ℚ)
        if density > avg_density * 1.5 then
          [Piece.lit (project_name ++ "\x27s crossing density (" ++ formatFixed 2 density
            ++ ") is significantly above the benchmark average (" ++ formatFixed 2 avg_density ++ ").")]
        else if density < avg_density * 0.5 then
          [Piece.lit (project_name ++ "\x27s crossing density (" ++ formatFixed 2 density
            ++ ") is well below the benchmark average (" ++ formatFixed 2 avg_density ++ ").")]
        else
          [Piece.lit (project_name ++ "\x27s crossing density (" ++ formatFixed 2 density
            ++ ") is in line with the benchmark average (" ++ formatFixed 2 avg_density ++ ").")]
      else [])
  ++ [Piece.lit "", Piece.lit "---", Piece.lit ""]

/-- Methodology block and footer. -/
def methodologyPieces : List Piece :=
  [Piece.lit "## Methodology", Piece.lit "",
   Piece.lit ("Crossing performs static AST analysis on Python source files. It maps "
     ++ "every `raise` statement to every `except` handler that could catch it, "
     ++ "then identifies **semantic boundary crossings** — places where the same "
     ++ "exception type is raised with different meanings in different contexts. "
     ++ "No code is executed; no network calls are made; no dependencies are required."),
   Piece.lit "",
   Piece.lit "Risk levels:",
   Piece.lit "- **Low:** Single raise site or uniform semantics",
   Piece.lit "- **Medium:** Multiple raise sites in different functions — handler may not distinguish",
   Piece.lit "- **Elevated:** Many divergent raise sites — high chance of incorrect handling",
   Piece.lit "- **High:** Handler collapse — many raise sites, very few handlers, ambiguous behavior",
   Piece.lit "", Piece.lit "---", Piece.lit "",
   Piece.lit "*Report generated by [Crossing](https://fridayops.xyz/crossing/) v0.9*  ",
   Piece.performedDate]

/-- The full report, as segments, with the relativisation root passed
explicitly (the body of `generate_report` after `root` is read). -/
def generateReportPiecesUsingRoot (root : String) (scan_data : ScanData)
    (project_name repo version : String) : List Piece :=
  let summary := scan_data.summary
  let crossings := scan_data.crossings
  headerPieces project_name repo version
  ++ execSummaryPieces root summary crossings project_name
  ++ scanTablePieces summary crossings
  ++ findingsSectionPieces root summary crossings
  ++ [Piece.lit "---", Piece.lit ""]
  ++ benchmarkPieces summary crossings project_name
  ++ methodologyPieces

/-- The full report as segments: the source reads the relativisation root
from the top-level key, `root = scan_data.get(\"root\", \"\")`. -/
def generateReportPieces (scan_data : ScanData) (project_name repo version : String) : List Piece :=
  generateReportPiecesUsingRoot ((scan_data.root).getD "") scan_data project_name repo version

/-- The segments of the report rendered with a concrete scan date. -/
def generateReportItems (scan_date : String) (scan_data : ScanData)
    (project_name repo version : String) : List String :=
  (generateReportPieces scan_data project_name repo version).map (renderPiece scan_date)

/-- Embeds `generate_report`: the joined markdown string. -/
def generate_report (scan_date : String) (scan_data : ScanData)
    (project_name repo version : String) : String :=
  String.intercalate "\n" (generateReportItems scan_date scan_data project_name repo version)

/-! ## Model of the analysis core

`semantic_scan.py` itself is not among the source files here (only its test
suite is), so the entities below are modelled from the specification, shaped
to the constructor signatures its tests use.  Real numbers stand in for the
Python floats, so the floating-tolerance clauses of the spec hold exactly. -/

/-- Modelled from the spec: the `RaiseSite` record of the data model
(`ExceptionRaise` in the test imports). -/
structure ExceptionRaise where
  file : String
  line : Nat
  exception_type : String
  in_function : String
  in_class : String
  source_line : String := ""
  context : String := ""
  implicit : Bool := false
  message_arg : Option String := none
deriving Repr, DecidableEq

/-- Modelled from the spec: the `HandlerSite` record of the data model
(`ExceptionHandler` in the test imports). -/
structure ExceptionHandler where
  file : String
  line : Nat
  exception_type : String
  in_function : String
  in_class : String
  handler_body_summary : String := ""
  source_line : String := ""
  re_raises : Bool := false
  returns_value : Bool := false
  assigns_default : Bool := false
  direct_raises_in_scope : Nat := 0
deriving Repr, DecidableEq

/-- Modelled from the spec: a `SemanticCrossing`, restricted to the fields
the information-theory metrics depend on. -/
structure SemanticCrossing where
  exception_type : String
  raise_sites : List ExceptionRaise := []
  handler_sites : List ExceptionHandler := []
deriving Repr, DecidableEq

/-- Modelled from the spec: an origin is a (function, class) pair of a raise
site; multiple raises in one function count as one origin.  The distinct
origins of a crossing. -/
def origins (c : SemanticCrossing) : List (String × String) :=
  (c.raise_sites.map (fun r => (r.in_function, r.in_class))).dedup

/-- Modelled from the spec: semantic entropy `S = log2(N)` bits when the
distinct-origin count `N` is at least 2, else 0. -/
noncomputable def semanticEntropy (c : SemanticCrossing) : ℝ :=
  if 2 ≤ (origins c).length then Real.logb 2 ((origins c).length : ℝ) else 0

/-- Modelled from the spec: per-handler capacity — 1 for a re-raiser, 1/2
when the handler both returns a value and assigns a default, 0 for a pure
return or assign, 1/4 otherwise. -/
def handlerCapacity (h : ExceptionHandler) : ℚ :=
  if h.re_raises then 1
  else if h.returns_value ∧ h.assigns_default then 1/2
  else if h.returns_value ∨ h.assigns_default then 0
  else 1/4

/-- Modelled from the spec: discrimination `D = S * mean(cap(h))` over the
associated handlers, and `D = S` when the handler set is empty. -/
noncomputable def handlerDiscrimination (c : SemanticCrossing) : ℝ :=
  if c.handler_sites = [] then semanticEntropy c
  else semanticEntropy c *
    ((c.handler_sites.map (fun h => ((handlerCapacity h : ℚ) : ℝ))).sum
      / (c.handler_sites.length : ℝ))

/-- Modelled from the spec: loss `L = S - D` bits. -/
noncomputable def informationLoss (c : SemanticCrossing) : ℝ :=
  semanticEntropy c - handlerDiscrimination c

/-- Modelled from the spec: collapse ratio `L / S` when `S > 0`, else 0. -/
noncomputable def collapseFrac (c : SemanticCrossing) : ℝ :=
  if 0 < semanticEntropy c then informationLoss c / semanticEntropy c else 0

/-- Modelled from the spec: a call edge of the call graph. -/
structure CallEdge where
  caller : String
  callee : String
  file : String := ""
  line : Nat := 0
deriving Repr, DecidableEq

/-- Modelled from the spec: the deduplicated forward successors of a node
(edge multiplicity is irrelevant for reachability). -/
def successors (edges : List CallEdge) (v : String) : List String :=
  ((edges.filter (fun e => e.caller == v)).map (fun e => e.callee)).dedup

/-- Depth-first forward traversal with a visit set, fuel-bounded so cycles
terminate: pop a node, skip it if seen, otherwise mark it and push its
successors. -/
def reachAux (edges : List CallEdge) : Nat → List String → List String → List String
  | 0, _, seen => seen
  | _ + 1, [], seen => seen
  | fuel + 1, u :: stack, seen =>
    if u ∈ seen then reachAux edges fuel stack seen
    else reachAux edges fuel (successors edges u ++ stack) (u :: seen)

/-- Fuel ample for any traversal of the graph: it bounds the total number of
stack pops (each fresh node pushes at most `edges.length` successors, and at
most `2 * edges.length` nodes are ever fresh). -/
def reachFuel (edges : List CallEdge) : Nat :=
  2 * edges.length * edges.length + edges.length + 1

/-- Modelled from the spec: `reachable(v)` — the set of nodes reachable from
`v` via forward traversal, excluding `v` itself. -/
def reachable (edges : List CallEdge) (v : String) : List String :=
  (reachAux edges (reachFuel edges) (successors edges v) []).filter (fun u => u ≠ v)

/-- Modelled from the spec: `can_reach(u, v)` is true iff `v` is in
`reachable(u)`. -/
def can_reach (edges : List CallEdge) (u v : String) : Bool :=
  (reachable edges u).contains v

/-! ## Concrete scan data used by counterexamples and witnesses -/

/-- Two low-risk crossings whose exception names are out of alphabetical
order; risk-only sorting leaves them as given. -/
def crossingB : Crossing := { exception_type := "B", risk_level := "low" }

/-- Companion to `crossingB`: alphabetically earlier name, same risk. -/
def crossingA : Crossing := { exception_type := "A", risk_level := "low" }

/-- Scan data whose crossing list is not ordered by exception name. -/
def c1Data : ScanData :=
  { summary := { total_crossings := some 2 }, crossings := [crossingB, crossingA] }

/-- A medium crossing with one raise site under `/s/pkg`. -/
def c2Crossing : Crossing :=
  { exception_type := "ValueError", risk_level := "medium",
    raise_sites := [{ file := some "/s/pkg/a.py", line := some 3, function := some "f",
                      context := some "", message := none, implicit := some false }] }

/-- Scan data whose summary `root` and top-level `root` disagree. -/
def c2Data : ScanData :=
  { summary := { root := some "/s/pkg", files_scanned := some 2, total_crossings := some 1 },
    crossings := [c2Crossing], root := some "/t" }

/-- Scan data holding a single low-risk crossing. -/
def lowData : ScanData :=
  { summary := { total_crossings := some 1 },
    crossings := [{ exception_type := "ValueError", risk_level := "low" }] }

/-- A crossing with two raise sites in different functions and no handlers
(the shape of `test_json_includes_information_theory`). -/
def cNoHandlers : SemanticCrossing :=
  { exception_type := "KeyError",
    raise_sites := [{ file := "a.py", line := 1, exception_type := "KeyError",
                      in_function := "a", in_class := "" },
                    { file := "a.py", line := 2, exception_type := "KeyError",
                      in_function := "b", in_class := "" }] }

/-- A crossing with four raise sites in four distinct functions (the shape of
`test_semantic_entropy_four_origins`). -/
def cFourOrigins : SemanticCrossing :=
  { exception_type := "ValueError",
    raise_sites := [{ file := "a.py", line := 0, exception_type := "ValueError",
                      in_function := "func0", in_class := "" },
                    { file := "a.py", line := 1, exception_type := "ValueError",
                      in_function := "func1", in_class := "" },
                    { file := "a.py", line := 2, exception_type := "ValueError",
                      in_function := "func2", in_class := "" },
                    { file := "a.py", line := 3, exception_type := "ValueError",
                      in_function := "func3", in_class := "" }] }

/-- A raise site in function `parse`. -/
def rParse : ExceptionRaise :=
  { file := "a.py", line := 1, exception_type := "ValueError",
    in_function := "parse", in_class := "" }

/-- Two raise sites, both in function `parse` (the shape of
`test_semantic_entropy_same_function_collapses`). -/
def cSameFunction : SemanticCrossing :=
  { exception_type := "ValueError",
    raise_sites := [rParse,
                    { file := "a.py", line := 5, exception_type := "ValueError",
                      in_function := "parse", in_class := "" }] }

/-- The two-edge cycle of `test_call_graph_cycle_handling`. -/
def cycEdges : List CallEdge :=
  [{ caller := "a", callee := "b", file := "test.py", line := 1 },
   { caller := "b", callee := "a", file := "test.py", line := 2 }]

/-- A crossing carrying only a risk level (for classification vectors). -/
def riskOnly (level : String) : Crossing :=
  { exception_type := "E", risk_level := level }

/-- A summary with no `files_scanned` key at all. -/
def summaryNoFiles : Summary := {}

/-- A summary with four files and two crossings. -/
def summaryFour : Summary := { files_scanned := some 4, total_crossings := some 2 }

/-! ## The ordering asserted by the spec for the final crossing list -/

/-- File of the first raise site of a crossing (empty when there is none). -/
def firstRaiseFile (c : Crossing) : String :=
  match c.raise_sites with
  | [] => ""
  | r :: _ => (r.file).getD ""

/-- Line of the first raise site of a crossing (0 when there is none). -/
def firstRaiseLine (c : Crossing) : Nat :=
  match c.raise_sites with
  | [] => 0
  | r :: _ => (r.line).getD 0

/-- The order the spec claims for the final crossing list: risk rank, then
exception name, then file and line of the first raise site. -/
def specCrossingLE (a b : Crossing) : Prop :=
  risk_sort_key a < risk_sort_key b ∨
  (risk_sort_key a = risk_sort_key b ∧
    (pyStringLt a.exception_type b.exception_type = true ∨
      (a.exception_type = b.exception_type ∧
        (pyStringLt (firstRaiseFile a) (firstRaiseFile b) = true ∨
          (firstRaiseFile a = firstRaiseFile b ∧ firstRaiseLine a ≤ firstRaiseLine b)))))

instance : DecidableRel specCrossingLE := fun a b => by
  unfold specCrossingLE
  infer_instance

/-- Agreement of two rendered reports up to the two scan-date lines:
same length, and every position either coincides or holds the scanned /
performed date line of the respective run. -/
def AgreeUpToDate (d₁ d₂ : String) (l₁ l₂ : List String) : Prop :=
  l₁.length = l₂.length ∧
  ∀ (i : Nat) (h₁ : i < l₁.length) (h₂ : i < l₂.length),
    l₁.get ⟨i, h₁⟩ = l₂.get ⟨i, h₂⟩ ∨
    (l₁.get ⟨i, h₁⟩ = renderPiece d₁ Piece.scannedDate ∧
     l₂.get ⟨i, h₂⟩ = renderPiece d₂ Piece.scannedDate) ∨
    (l₁.get ⟨i, h₁⟩ = renderPiece d₁ Piece.performedDate ∧
     l₂.get ⟨i, h₂⟩ = renderPiece d₂ Piece.performedDate)

/-! ## Helper lemmas -/

theorem handlerCapacity_nonneg (h : ExceptionHandler) : 0 ≤ handlerCapacity h := by
  unfold handlerCapacity
  split_ifs <;> norm_num

theorem handlerCapacity_le_one (h : ExceptionHandler) : handlerCapacity h ≤ 1 := by
  unfold handlerCapacity
  split_ifs <;> norm_num

theorem semanticEntropy_nonneg (c : SemanticCrossing) : 0 ≤ semanticEntropy c := by
  unfold semanticEntropy
  split_ifs with h
  · exact Real.logb_nonneg (by norm_num) (by exact_mod_cast le_trans one_le_two h)
  · exact le_refl 0

theorem handlerDiscrimination_bounds (c : SemanticCrossing) :
    0 ≤ handlerDiscrimination c ∧ handlerDiscrimination c ≤ semanticEntropy c := by
  have hS0 : 0 ≤ semanticEntropy c := semanticEntropy_nonneg c
  unfold handlerDiscrimination
  split_ifs with hH
  · exact ⟨hS0, le_refl _⟩
  · set l := c.handler_sites.map (fun h => ((handlerCapacity h : ℚ) : ℝ)) with hl
    have hlen : 0 < (c.handler_sites.length : ℝ) := by
      have h1 : 0 < c.handler_sites.length := List.length_pos.mpr hH
      exact_mod_cast h1
    have hsum0 : 0 ≤ l.sum := by
      apply List.sum_nonneg
      intro x hx
      rw [hl] at hx
      simp only [List.mem_map] at hx
      obtain ⟨h, _, rfl⟩ := hx
      exact_mod_cast handlerCapacity_nonneg h
    have hsum1 : l.sum ≤ (c.handler_sites.length : ℝ) := by
      have hb := List.sum_le_card_nsmul l 1 (by
        intro x hx
        rw [hl] at hx
        simp only [List.mem_map] at hx
        obtain ⟨h, _, rfl⟩ := hx
        exact_mod_cast handlerCapacity_le_one h)
      simpa [hl, nsmul_eq_mul] using hb
    constructor
    · exact mul_nonneg hS0 (div_nonneg hsum0 hlen.le)
    · have hm1 : l.sum / (c.handler_sites.length : ℝ) ≤ 1 :=
        (div_le_one hlen).mpr hsum1
      calc semanticEntropy c * (l.sum / (c.handler_sites.length : ℝ))
          ≤ semanticEntropy c * 1 := by
            exact mul_le_mul_of_nonneg_left hm1 hS0
        _ = semanticEntropy c := mul_one _

/-! ## Claims C3, C4, C5, C7, C8, C9 -/

/-- C3: for a crossing with no associated handlers, discrimination equals
semantic entropy, so the information loss is 0 and the collapse ratio is 0,
whatever the raise sites are. -/
theorem no_handler_no_loss (c : SemanticCrossing) (h : c.handler_sites = []) :
    handlerDiscrimination c = semanticEntropy c ∧
    informationLoss c = 0 ∧ collapseFrac c = 0 := by
  have hD : handlerDiscrimination c = semanticEntropy c := by
    unfold handlerDiscrimination
    rw [if_pos h]
  have hL : informationLoss c = 0 := by
    unfold informationLoss
    rw [hD, sub_self]
  refine ⟨hD, hL, ?_⟩
  unfold collapseFrac
  split_ifs with hS
  · rw [hL, zero_div]
  · rfl

/-- C3 witness: the two-origin, handler-free crossing of the tests has
discrimination equal to its entropy and zero loss and collapse. -/
theorem no_handler_no_loss_witness :
    handlerDiscrimination cNoHandlers = semanticEntropy cNoHandlers ∧
    informationLoss cNoHandlers = 0 ∧ collapseFrac cNoHandlers = 0 :=
  no_handler_no_loss cNoHandlers rfl

/-- C4: for every crossing the collapse ratio lies in [0, 1] and loss plus
discrimination equals semantic entropy (exactly, in the real-valued model of
the floats). -/
theorem collapse_ratio_bounds (c : SemanticCrossing) :
    0 ≤ collapseFrac c ∧ collapseFrac c ≤ 1 ∧
    informationLoss c + handlerDiscrimination c = semanticEntropy c := by
  have hD := handlerDiscrimination_bounds c
  refine ⟨?_, ?_, ?_⟩
  · unfold collapseFrac
    split_ifs with hS
    · apply div_nonneg _ hS.le
      unfold informationLoss
      linarith [hD.2]
    · exact le_refl 0
  · unfold collapseFrac
    split_ifs with hS
    · rw [div_le_one hS]
      unfold informationLoss
      linarith [hD.1]
    · norm_num
  · unfold informationLoss
    ring

/-- C5: semantic entropy is log2 of the distinct (function, class) origin
count when that count is at least 2 and zero otherwise, and a raise site
whose (function, class) pair already occurs adds no origin and leaves the
entropy unchanged. -/
theorem semantic_entropy_spec (c : SemanticCrossing) :
    (2 ≤ (origins c).length →
      semanticEntropy c = Real.logb 2 ((origins c).length : ℝ)) ∧
    ((origins c).length < 2 → semanticEntropy c = 0) ∧
    (∀ r : ExceptionRaise,
      (r.in_function, r.in_class) ∈ c.raise_sites.map (fun s => (s.in_function, s.in_class)) →
      origins { c with raise_sites := r :: c.raise_sites } = origins c ∧
      semanticEntropy { c with raise_sites := r :: c.raise_sites } = semanticEntropy c) := by
  refine ⟨?_, ?_, ?_⟩
  · intro h
    unfold semanticEntropy
    rw [if_pos h]
  · intro h
    unfold semanticEntropy
    rw [if_neg (by omega)]
  · intro r hmem
    have ho : origins { c with raise_sites := r :: c.raise_sites } = origins c := by
      unfold origins
      simp only [List.map_cons]
      exact List.dedup_cons_of_mem (by simpa using hmem)
    refine ⟨ho, ?_⟩
    unfold semanticEntropy
    rw [ho]

/-- C5 witness: four distinct origins give entropy log2(4), two raises in the
same function give entropy 0, and duplicating an existing origin keeps the
entropy. -/
theorem semantic_entropy_spec_witness :
    semanticEntropy cFourOrigins = Real.logb 2 ((origins cFourOrigins).length : ℝ) ∧
    semanticEntropy cSameFunction = 0 ∧
    semanticEntropy { cSameFunction with raise_sites := rParse :: cSameFunction.raise_sites }
      = semanticEntropy cSameFunction :=
  ⟨(semantic_entropy_spec cFourOrigins).1 (by decide),
   (semantic_entropy_spec cSameFunction).2.1 (by decide),
   ((semantic_entropy_spec cSameFunction).2.2 rParse (by decide)).2⟩

/-- C7: call-graph reachability excludes the start node on every graph, so
`can_reach a a` is false, also on cycles — the two-edge cycle still reaches
in both directions between distinct nodes. -/
theorem reachable_excludes_self (edges : List CallEdge) (a : String) :
    a ∉ reachable edges a ∧ can_reach edges a a = false ∧
    can_reach cycEdges "a" "b" = true ∧ can_reach cycEdges "b" "a" = true := by
  have hmem : a ∉ reachable edges a := by
    intro hx
    have h1 := List.mem_filter.mp hx
    simp at h1
  refine ⟨hmem, ?_, by decide, by decide⟩
  unfold can_reach
  simpa using hmem

/-- C8: the overall risk classification is a total function given exactly by
the documented case split, matching the vectors of
`test_classify_overall_risk`. -/
theorem classify_overall_risk_cases (crossings : List Crossing) :
    (classify_overall_risk crossings =
      if 3 ≤ crossings.countP (fun c => c.risk_level == "high") then "High"
      else if 1 ≤ crossings.countP (fun c => c.risk_level == "high")
            ∨ 3 ≤ crossings.countP (fun c => c.risk_level == "elevated") then "Medium-High"
      else if 1 ≤ crossings.countP (fun c => c.risk_level == "elevated")
            ∨ 3 ≤ crossings.countP (fun c => c.risk_level == "medium") then "Medium"
      else if 1 ≤ crossings.countP (fun c => c.risk_level == "medium") then "Low-Medium"
      else "Low") ∧
    classify_overall_risk [] = "Low" ∧
    classify_overall_risk [riskOnly "medium"] = "Low-Medium" ∧
    classify_overall_risk [riskOnly "medium", riskOnly "medium", riskOnly "medium"] = "Medium" ∧
    classify_overall_risk [riskOnly "high"] = "Medium-High" ∧
    classify_overall_risk [riskOnly "high", riskOnly "high", riskOnly "high"] = "High" :=
  ⟨rfl, by decide, by decide, by decide, by decide, by decide⟩

/-- C9: the crossing density reported by `generate_report` is 0 when
`files_scanned` is 0 or absent, and is `total_crossings / files_scanned`
otherwise, so no division by zero occurs. -/
theorem report_density_safe (s : Summary) :
    (filesScanned s = 0 → reportDensity s = 0) ∧
    (0 < filesScanned s →
      reportDensity s = (totalCrossings s : ℚ) / (filesScanned s : ℚ)) := by
  constructor
  · intro h
    unfold reportDensity
    rw [h]
    norm_num
  · intro h
    unfold reportDensity
    rw [if_pos h]

/-- C9 witness: a summary without `files_scanned` reports density 0, and four
files with two crossings report density one half. -/
theorem report_density_safe_witness :
    reportDensity summaryNoFiles = 0 ∧ reportDensity summaryFour = 1/2 := by
  refine ⟨(report_density_safe summaryNoFiles).1 rfl, ?_⟩
  have h := (report_density_safe summaryFour).2 (by decide)
  rw [h]
  norm_num [totalCrossings, filesScanned, summaryFour]

/-! ## Claims C6, C1, C2, C10 -/

theorem map_render_agree (d₁ d₂ : String) (ps : List Piece) :
    AgreeUpToDate d₁ d₂ (ps.map (renderPiece d₁)) (ps.map (renderPiece d₂)) := by
  refine ⟨by simp, ?_⟩
  intro i h₁ h₂
  have hi : i < ps.length := by simpa using h₁
  have e₁ : (ps.map (renderPiece d₁)).get ⟨i, h₁⟩ = renderPiece d₁ (ps.get ⟨i, hi⟩) := by
    simp
  have e₂ : (ps.map (renderPiece d₂)).get ⟨i, h₂⟩ = renderPiece d₂ (ps.get ⟨i, hi⟩) := by
    simp
  rw [e₁, e₂]
  cases ps.get ⟨i, hi⟩ with
  | lit s => exact Or.inl rfl
  | scannedDate => exact Or.inr (Or.inl ⟨rfl, rfl⟩)
  | performedDate => exact Or.inr (Or.inr ⟨rfl, rfl⟩)

/-- C6: for a fixed scan report, project name, repo and version, two runs of
the generator differ at most in the two segments carrying the scan date —
the one value the source takes from the clock instead of its arguments. -/
theorem report_deterministic_modulo_date (sd : ScanData) (pn repo ver d₁ d₂ : String) :
    AgreeUpToDate d₁ d₂ (generateReportItems d₁ sd pn repo ver)
      (generateReportItems d₂ sd pn repo ver) :=
  map_render_agree d₁ d₂ (generateReportPieces sd pn repo ver)

theorem filter_orderedInsert_risk (k : Nat) (x : Crossing) (l : List Crossing) :
    (List.orderedInsert riskLE x l).filter (fun c => risk_sort_key c == k)
      = if risk_sort_key x == k
          then x :: l.filter (fun c => risk_sort_key c == k)
          else l.filter (fun c => risk_sort_key c == k) := by
  induction l with
  | nil =>
    simp only [List.orderedInsert]
    by_cases hx : risk_sort_key x = k <;> simp [List.filter_cons, hx]
  | cons y l ih =>
    rw [List.orderedInsert]
    by_cases hxy : riskLE x y
    · rw [if_pos hxy]
      by_cases hx : risk_sort_key x = k <;> simp [List.filter_cons, hx]
    · rw [if_neg hxy]
      have hyx : risk_sort_key y < risk_sort_key x := Nat.lt_of_not_le hxy
      by_cases hx : risk_sort_key x = k
      · have hy : ¬ (risk_sort_key y = k) := by omega
        simp [List.filter_cons, ih, hx, hy]
      · simp [List.filter_cons, ih, hx]

theorem filter_insertionSort_risk (k : Nat) (l : List Crossing) :
    (List.insertionSort riskLE l).filter (fun c => risk_sort_key c == k)
      = l.filter (fun c => risk_sort_key c == k) := by
  induction l with
  | nil => rfl
  | cons x l ih =>
    rw [List.insertionSort, filter_orderedInsert_risk]
    by_cases hx : risk_sort_key x = k <;> simp [List.filter_cons, hx, ih]

/-- C1 counterexample: two low-risk crossings named B then A stay in input
order under the actual sort, so the list is not ordered by risk, then
exception name, then first raise-site file and line as claimed. -/
theorem crossing_list_not_spec_sorted :
    ¬ List.Sorted specCrossingLE (crossings_sorted c1Data.crossings) := by
  decide

/-- C1 (amended): the final crossing list is sorted by risk rank alone
(`_risk_sort_key`), and the sort is stable — within each risk rank the
crossings keep their input order (Python `sorted` is stable). -/
theorem crossing_list_sorted_by_risk (sd : ScanData) :
    List.Sorted riskLE (crossings_sorted sd.crossings) ∧
    ∀ k : Nat, (crossings_sorted sd.crossings).filter (fun c => risk_sort_key c == k)
      = sd.crossings.filter (fun c => risk_sort_key c == k) :=
  ⟨List.sorted_insertionSort riskLE sd.crossings,
   fun k => filter_insertionSort_risk k sd.crossings⟩

/-- C2 counterexample: on scan data whose summary `root` is `/s/pkg` but
whose top-level `root` is `/t`, the report relativises the crossing file
`/s/pkg/a.py` against `/t`, showing `../s/pkg/a.py` — not against the
summary root, which would show `a.py`.  The code reads the top-level key. -/
theorem report_root_not_summary_root :
    affectedFilesShown c2Data c2Crossing = ["../s/pkg/a.py"] ∧
    get_affected_files c2Crossing ((c2Data.summary.root).getD "") = ["a.py"] ∧
    affectedFilesShown c2Data c2Crossing ≠
      get_affected_files c2Crossing ((c2Data.summary.root).getD "") := by
  refine ⟨by decide, by decide, by decide⟩

/-- C2 (amended): the scan root used to relativise every file path shown in
the report is the top-level `root` key of the scan data (empty when absent),
not the `root` inside `summary`. -/
theorem report_root_is_top_level (sd : ScanData) (pn repo ver r : String)
    (h : sd.root = some r) :
    generateReportPieces sd pn repo ver = generateReportPiecesUsingRoot r sd pn repo ver := by
  unfold generateReportPieces
  rw [h]
  rfl

/-- C2 witness: on the mismatched scan data the generator agrees with the
top-level root `/t`. -/
theorem report_root_is_top_level_witness :
    generateReportPieces c2Data "proj" "" "" =
      generateReportPiecesUsingRoot "/t" c2Data "proj" "" "" :=
  report_root_is_top_level c2Data "proj" "" "" "/t" rfl

/-- C10: a crossing reaches the findings section exactly when its risk level
is high, elevated or medium, and when every crossing is low risk (and the
summary counter agrees with the crossing list, as scanner output does) the
report instead carries the no-action-required line. -/
theorem findings_iff_significant (sd : ScanData) (pn repo ver d : String)
    (wf : totalCrossings sd.summary = sd.crossings.length) :
    (∀ c : Crossing, c ∈ significantOf sd.crossings ↔
      (c ∈ sd.crossings ∧ c.risk_level ∈ significantLevels)) ∧
    ((∀ c ∈ sd.crossings, c.risk_level = "low") → sd.crossings ≠ [] →
      ("All " ++ toString sd.crossings.length ++ " crossing"
        ++ (if sd.crossings.length ≠ 1 then "s are" else " is")
        ++ " low risk. No action required.")
        ∈ generateReportItems d sd pn repo ver) := by
  have hmemiff : ∀ c : Crossing, c ∈ significantOf sd.crossings ↔
      (c ∈ sd.crossings ∧ c.risk_level ∈ significantLevels) := by
    intro c
    unfold significantOf crossings_sorted
    rw [List.mem_filter]
    constructor
    · rintro ⟨h1, h2⟩
      refine ⟨(List.perm_insertionSort riskLE sd.crossings).mem_iff.mp h1, ?_⟩
      simpa using h2
    · rintro ⟨h1, h2⟩
      refine ⟨(List.perm_insertionSort riskLE sd.crossings).mem_iff.mpr h1, ?_⟩
      simpa using h2
  refine ⟨hmemiff, ?_⟩
  intro hlow hne
  have hsig : significantOf sd.crossings = [] := by
    rw [List.eq_nil_iff_forall_not_mem]
    intro c hc
    have h1 := (hmemiff c).mp hc
    have h2 := hlow c h1.1
    have h3 := h1.2
    rw [h2] at h3
    simp [significantLevels] at h3
  have htc : totalCrossings sd.summary ≠ 0 := by
    rw [wf]
    have hpos : 0 < sd.crossings.length := List.length_pos.mpr hne
    omega
  have hfind : findingsSectionPieces ((sd.root).getD "") sd.summary sd.crossings =
      [Piece.lit "## Findings", Piece.lit "",
       Piece.lit ("All " ++ toString (totalCrossings sd.summary) ++ " crossing"
         ++ (if totalCrossings sd.summary ≠ 1 then "s are" else " is")
         ++ " low risk. No action required."),
       Piece.lit ""] := by
    unfold findingsSectionPieces
    simp only [hsig]
    rw [if_neg (by simp), if_pos (Nat.pos_of_ne_zero htc)]
  have hp : Piece.lit ("All " ++ toString (totalCrossings sd.summary) ++ " crossing"
      ++ (if totalCrossings sd.summary ≠ 1 then "s are" else " is")
      ++ " low risk. No action required.")
      ∈ generateReportPieces sd pn repo ver := by
    have hshape : generateReportPieces sd pn repo ver =
        headerPieces pn repo ver
        ++ execSummaryPieces ((sd.root).getD "") sd.summary sd.crossings pn
        ++ scanTablePieces sd.summary sd.crossings
        ++ findingsSectionPieces ((sd.root).getD "") sd.summary sd.crossings
        ++ [Piece.lit "---", Piece.lit ""]
        ++ benchmarkPieces sd.summary sd.crossings pn
        ++ methodologyPieces := rfl
    rw [hshape, hfind]
    simp [List.mem_append]
  rw [wf] at hp
  exact List.mem_map_of_mem (renderPiece d) hp

/-- C10 witness: a report over one low-risk crossing carries the
no-action-required line. -/
theorem findings_iff_significant_witness :
    ("All " ++ toString lowData.crossings.length ++ " crossing"
      ++ (if lowData.crossings.length ≠ 1 then "s are" else " is")
      ++ " low risk. No action required.")
      ∈ generateReportItems "2026-01-01" lowData "P" "" "" :=
  (findings_iff_significant lowData "P" "" "" "2026-01-01" (by decide)).2
    (by decide) (by decide)
